import Mathlib

/-!
Shallow embedding of the jason-pharma-leads Flask application (`src/app.py`):
the `LeadScorer` scoring and company-extraction functions, the
`ClinicalTrialsAPI.search_trials` client wrapper, and the aggregation
handlers `get_leads` (`/api/leads`), `get_company_details`
(`/api/company/<name>`), `get_pipeline_analysis` (`/api/pipeline`) and
`export_leads` (`/api/export`).

Modelling conventions:
- A trial record is the nested JSON document of the registry; each `.get`
  with a default is modelled by an `Option` field (absent key / empty dict
  collapses to `none`) or by a plain `String` holding the post-default
  value when nothing downstream distinguishes absence from the default.
- `datetime.now()` is passed in explicitly as `now`, a civil day number
  (days since 1970-01-01); `datetime.strptime(s, "%Y-%m-%d")` is modelled
  by `parseDateYMD`, which validates exactly the strings the Python call
  accepts (4-digit year ≥ 1, 1-2 digit month 1..12, 1-2 digit day valid
  for that month and year) and yields the date's civil day number, so that
  `(comp_date - datetime.now()).days` becomes `parsedDay - now`.
- Python exceptions caught by a handler's outer `try/except` are the
  `failure` constructor of `HttpResult`; the per-record `try/except`
  blocks never fire in the embedding because field access is total.
- Machine integers: Python ints are unbounded, so scores are plain `Int`.
-/

/-- Tail of a prefix test on character lists: does the first list start
with the second one? -/
def listStartsWith : List Char → List Char → Bool
  | _, [] => true
  | [], _ :: _ => false
  | a :: as, b :: bs => a == b && listStartsWith as bs

/-- Substring occurrence on character lists, scanning every suffix. -/
def listContainsSub : List Char → List Char → Bool
  | [], needle => needle.isEmpty
  | a :: t, needle => listStartsWith (a :: t) needle || listContainsSub t needle

/-- Python's `needle in hay` on strings: substring containment. -/
def strContains (hay needle : String) : Bool :=
  listContainsSub hay.toList needle.toList

/-- Split a character list at every occurrence of `c` (like
`str.split("-")` / the field separation done by `strptime`). -/
def splitOnChar (c : Char) : List Char → List (List Char)
  | [] => [[]]
  | a :: rest =>
    match splitOnChar c rest with
    | [] => [[]]
    | grp :: grps => if a == c then [] :: grp :: grps else (a :: grp) :: grps

/-- Numeric value of a digit string. -/
def digitsVal (l : List Char) : Nat :=
  l.foldl (fun acc c => acc * 10 + (c.toNat - 48)) 0

/-- Gregorian leap-year rule used by Python's `datetime`. -/
def isLeapYear (y : Nat) : Bool :=
  y % 4 == 0 && (y % 100 != 0 || y % 400 == 0)

/-- Number of days in month `m` of year `y`. -/
def daysInMonth (y m : Nat) : Nat :=
  if m == 2 then (if isLeapYear y then 29 else 28)
  else if m == 4 || m == 6 || m == 9 || m == 11 then 30
  else 31

/-- Civil day number (days since 1970-01-01) of a Gregorian date with
year ≥ 1, by the standard era/year-of-era decomposition. -/
def daysFromCivil (y m d : Nat) : Int :=
  let yAdj := y - (if m ≤ 2 then 1 else 0)
  let era := yAdj / 400
  let yoe := yAdj % 400
  let mp := if m > 2 then m - 3 else m + 9
  let doy := (153 * mp + 2) / 5 + (d - 1)
  let doe := yoe * 365 + yoe / 4 - yoe / 100 + doy
  ((era * 146097 + doe : Nat) : Int) - 719468

/-- Model of `datetime.strptime(s, "%Y-%m-%d")`: exactly three dash-separated
digit groups (4-digit year, 1-2 digit month in 1..12, 1-2 digit day valid
for the month; year 0 is rejected like `datetime`'s MINYEAR check), returning
the civil day number of the parsed date, or `none` where Python raises
`ValueError`. -/
def parseDateYMD (s : String) : Option Int :=
  match splitOnChar '-' s.toList with
  | [ys, ms, ds] =>
    if ys.length == 4 && ys.all Char.isDigit &&
       (ms.length == 1 || ms.length == 2) && ms.all Char.isDigit &&
       (ds.length == 1 || ds.length == 2) && ds.all Char.isDigit then
      let y := digitsVal ys
      let m := digitsVal ms
      let d := digitsVal ds
      if 1 ≤ y && 1 ≤ m && m ≤ 12 && 1 ≤ d && d ≤ daysInMonth y m then
        some (daysFromCivil y m d)
      else none
    else none
  | _ => none

/-- Model of a `...DateStruct` JSON sub-object: `date` is `none` when the
key is absent (Python `.get("date", default)`). A wholly absent or empty
sub-object is `none` at the use site. -/
structure DateStruct where
  date : Option String
deriving DecidableEq

/-- Model of a sponsor / collaborator object; `name` holds the value of
`.get("name", "")`, so an absent name is the empty string. -/
structure Sponsor where
  name : String
deriving DecidableEq

/-- Model of `sponsorCollaboratorsModule`: `leadSponsor` is `none` when the
key is missing or the dict is empty (Python truthiness test on line 108). -/
structure SponsorCollaboratorsModule where
  leadSponsor : Option Sponsor
  collaborators : List Sponsor
deriving DecidableEq

/-- Model of `identificationModule` after defaulting (`nctId`, `briefTitle`
hold the `.get(..., "Unknown")` results). -/
structure IdentificationModule where
  nctId : String
  briefTitle : String
deriving DecidableEq

/-- Model of `statusModule`: `overallStatus` holds the post-default string
value; the date structs are `none` when missing/empty. -/
structure StatusModule where
  overallStatus : String
  startDateStruct : Option DateStruct
  completionDateStruct : Option DateStruct
deriving DecidableEq

/-- Model of `designModule`. -/
structure DesignModule where
  phases : List String
deriving DecidableEq

/-- Model of `conditionsModule`. -/
structure ConditionsModule where
  conditions : List String
deriving DecidableEq

/-- Model of one intervention object; `name` holds `.get("name", "")`. -/
structure Intervention where
  name : String
deriving DecidableEq

/-- Model of `armsInterventionsModule`. -/
structure ArmsInterventionsModule where
  interventions : List Intervention
deriving DecidableEq

/-- Model of `protocolSection` with the six sub-modules the code reads. -/
structure ProtocolSection where
  identificationModule : IdentificationModule
  statusModule : StatusModule
  designModule : DesignModule
  conditionsModule : ConditionsModule
  armsInterventionsModule : ArmsInterventionsModule
  sponsorCollaboratorsModule : SponsorCollaboratorsModule
deriving DecidableEq

/-- Model of one study record of the registry response. -/
structure Study where
  protocolSection : ProtocolSection
deriving DecidableEq

/-- Model of the parsed registry response document: the `studies` array
(`trials_data.get("studies", [])`). -/
structure TrialsData where
  studies : List Study
deriving DecidableEq

/-- Joined phase string: `", ".join(phases) if phases else ""` (the
intercalation of the empty list is already the empty string). -/
def phaseJoined (t : Study) : String :=
  String.intercalate ", " t.protocolSection.designModule.phases

/-- Phase component of `calculate_fda_approval_likelihood` (app.py lines
66-72): an `elif` chain of substring tests on the joined phase string,
checking PHASE3 first, then PHASE2, then PHASE4. -/
def phaseScore (t : Study) : Int :=
  let phase_str := phaseJoined t
  if strContains phase_str "PHASE3" then 40
  else if strContains phase_str "PHASE2" then 20
  else if strContains phase_str "PHASE4" then 50
  else 0

/-- Status component of `calculate_fda_approval_likelihood` (lines 74-81). -/
def statusScore (t : Study) : Int :=
  let status := t.protocolSection.statusModule.overallStatus
  if status == "COMPLETED" then 30
  else if status == "ACTIVE_NOT_RECRUITING" then 25
  else if status == "RECRUITING" then 15
  else 0

/-- Timeline component of `calculate_fda_approval_likelihood` (lines 83-97):
0 when the completion-date struct or date string is missing/empty or fails
to parse (the `except: pass`), else 35 when at most 180 days from `now`,
else 25 when at most 365 days, else 0. -/
def timelineScore (now : Int) (t : Study) : Int :=
  match t.protocolSection.statusModule.completionDateStruct with
  | none => 0
  | some info =>
    match info.date with
    | none => 0
    | some date_str =>
      if date_str == "" then 0
      else
        match parseDateYMD date_str with
        | none => 0
        | some compDay =>
          let days_to_completion := compDay - now
          if days_to_completion ≤ 180 then 35
          else if days_to_completion ≤ 365 then 25
          else 0

/-- `LeadScorer.calculate_fda_approval_likelihood` (lines 57-99): the sum of
the three components, capped at 100. -/
def calculate_fda_approval_likelihood (now : Int) (t : Study) : Int :=
  min (phaseScore t + statusScore t + timelineScore now t) 100

/-- The acceptance test applied to each sponsor/collaborator name (lines
110 and 117): non-empty and containing neither "University" nor
"Hospital". -/
def companyNameOk (name : String) : Bool :=
  name != "" && !strContains name "University" && !strContains name "Hospital"

/-- The collaborator loop of `extract_company_info` (lines 114-118):
append each acceptable collaborator name in order. -/
def collabNames : List Sponsor → List String
  | [] => []
  | c :: rest =>
    if companyNameOk c.name then c.name :: collabNames rest
    else collabNames rest

/-- `LeadScorer.extract_company_info` (lines 101-120): the acceptable lead
sponsor name (if the sponsor object is present) followed by acceptable
collaborator names, deduplicated. Python's `list(set(companies))` yields
the distinct names in unspecified order; `List.dedup` models it keeping
first occurrences (no theorem below depends on the order). -/
def extract_company_info (t : Study) : List String :=
  let scm := t.protocolSection.sponsorCollaboratorsModule
  let fromSponsor : List String :=
    match scm.leadSponsor with
    | none => []
    | some ls => if companyNameOk ls.name then [ls.name] else []
  (fromSponsor ++ collabNames scm.collaborators).dedup

/-- Outcome of one `requests` call as the handlers observe it: a response
with a status code and a parsed body, or a raised transport/parse
exception. -/
inductive HttpResult (α : Type) where
  | success (status : Nat) (body : α)
  | failure
deriving DecidableEq

/-- `ClinicalTrialsAPI.search_trials` (app.py lines 20-44) after the
request is issued: return the parsed body when the status code is exactly
200, `None` on any other status, and `None` when the request raised. The
body type is abstract because the function returns whatever
`response.json()` parsed. -/
def search_trials {α : Type} (r : HttpResult α) : Option α :=
  match r with
  | .success status body => if status == 200 then some body else none
  | .failure => none

/-- Minimal JSON value model, used to state what `search_trials` returns
when the parsed body is a full response document. -/
inductive JsonVal where
  | str (s : String)
  | arr (elems : List JsonVal)
  | obj (fields : List (String × JsonVal))

/-- Joined list field with Python's truthiness default:
`", ".join(xs) if xs else deflt`. -/
def joinOrDefault (xs : List String) (deflt : String) : String :=
  if xs.isEmpty then deflt else String.intercalate ", " xs

/-- One element of the `/api/leads` response array (the dict built at
app.py lines 245-256). -/
structure Lead where
  nct_id : String
  title : String
  phase : String
  status : String
  companies : List String
  drug_name : String
  condition : String
  completion_date : String
  fda_likelihood : Int
  priority : String
deriving DecidableEq

/-- Build the lead dict for one study (app.py lines 220-256). -/
def mkLead (now : Int) (study : Study) : Lead :=
  let protocol_section := study.protocolSection
  let identification := protocol_section.identificationModule
  let status_module := protocol_section.statusModule
  let design_module := protocol_section.designModule
  let conditions_module := protocol_section.conditionsModule
  let interventions_module := protocol_section.armsInterventionsModule
  let intervention_names := interventions_module.interventions.map (fun i => i.name)
  let drug_name := joinOrDefault intervention_names "Unknown"
  let condition := joinOrDefault conditions_module.conditions "Unknown"
  let completion_date :=
    match status_module.completionDateStruct with
    | none => "TBD"
    | some ds => ds.date.getD "TBD"
  let phase := joinOrDefault design_module.phases "Unknown"
  let likelihood := calculate_fda_approval_likelihood now study
  { nct_id := identification.nctId
    title := identification.briefTitle
    phase := phase
    status := status_module.overallStatus
    companies := extract_company_info study
    drug_name := drug_name
    condition := condition
    completion_date := completion_date
    fda_likelihood := likelihood
    priority := if likelihood > 70 then "High"
                else if likelihood > 50 then "Medium" else "Low" }

/-- The filter applied before a study becomes a lead (app.py line 219):
non-empty extracted companies and likelihood strictly above 30. -/
def leadKeep (now : Int) (study : Study) : Bool :=
  !(extract_company_info study).isEmpty &&
  decide (calculate_fda_approval_likelihood now study > 30)

/-- The collection loop of `get_leads` (app.py lines 210-264): walk the
studies in order, append the shaped lead when `leadKeep` holds, and break
out of the loop as soon as 50 leads are collected (the length test runs
once per iteration, after the conditional append). -/
def collectLeads (now : Int) : List Study → List Lead → List Lead
  | [], leads => leads
  | study :: rest, leads =>
    let leads' := if leadKeep now study then leads ++ [mkLead now study] else leads
    if leads'.length ≥ 50 then leads' else collectLeads now rest leads'

/-- Descending comparison on `fda_likelihood` used to model
`leads.sort(key=lambda x: x["fda_likelihood"], reverse=True)`. -/
def leadGE (a b : Lead) : Prop := b.fda_likelihood ≤ a.fda_likelihood

instance : DecidableRel leadGE := fun a b => Int.decLe b.fda_likelihood a.fda_likelihood

instance : IsTotal Lead leadGE := ⟨fun a b => Int.le_total b.fda_likelihood a.fda_likelihood⟩

instance : IsTrans Lead leadGE := ⟨fun _ _ _ h1 h2 => Int.le_trans h2 h1⟩

/-- Response of the `/api/leads` handler: a 200 JSON array of leads, or a
500 error payload (no upstream response / no studies / unexpected
exception). -/
inductive LeadsResponse where
  | ok (leads : List Lead)
  | error500 (msg : String)
deriving DecidableEq

/-- `get_leads` (`/api/leads`, app.py lines 184-277): call the search
client, 500 when it returned `None` or the document has no studies,
otherwise collect at most 50 filtered leads and sort them by
`fda_likelihood` descending (a stable sort, modelled by the stable
`List.insertionSort`) after collection. -/
def get_leads (now : Int) (apiResult : HttpResult TrialsData) : LeadsResponse :=
  match search_trials apiResult with
  | none => .error500 "No response from ClinicalTrials.gov API"
  | some trials_data =>
    let studies := trials_data.studies
    if studies.isEmpty then .error500 "No studies found"
    else
      let leads := collectLeads now studies []
      .ok (List.insertionSort leadGE leads)

/-- One element of the `/api/pipeline` response array (the dict built at
app.py lines 427-435). -/
structure PipelineItem where
  companies : List String
  drug_name : String
  phase : String
  completion_date : String
  condition : String
  urgency : String
  fda_likelihood : Int
deriving DecidableEq

/-- The `within_6_months` computation of `get_pipeline_analysis` (app.py
lines 392-403): false when the completion date is missing or empty or
fails to parse, else true exactly when the parsed date is at most 180
days from `now`. -/
def within6Months (now : Int) (study : Study) : Bool :=
  match study.protocolSection.statusModule.completionDateStruct with
  | none => false
  | some ds =>
    match ds.date with
    | none => false
    | some completion_date =>
      if completion_date == "" then false
      else
        match parseDateYMD completion_date with
        | none => false
        | some compDay => decide (compDay - now ≤ 180)

/-- Build the pipeline item for one kept study (app.py lines 405-436);
`urgency` is the constant "High". -/
def mkPipelineItem (now : Int) (study : Study) : PipelineItem :=
  let protocol_section := study.protocolSection
  let status_module := protocol_section.statusModule
  let design_module := protocol_section.designModule
  let conditions_module := protocol_section.conditionsModule
  let interventions_module := protocol_section.armsInterventionsModule
  let intervention_names := interventions_module.interventions.map (fun i => i.name)
  let completion_date :=
    match status_module.completionDateStruct with
    | none => ""
    | some ds => ds.date.getD ""
  { companies := extract_company_info study
    drug_name := joinOrDefault intervention_names "Unknown"
    phase := joinOrDefault design_module.phases "Unknown"
    completion_date := completion_date
    condition := joinOrDefault conditions_module.conditions "Unknown"
    urgency := "High"
    fda_likelihood := calculate_fda_approval_likelihood now study }

/-- Response of the `/api/pipeline` handler. -/
inductive PipelineResponse where
  | ok (items : List PipelineItem)
  | error500 (msg : String)
deriving DecidableEq

/-- The study loop of `get_pipeline_analysis` (app.py lines 386-440): keep
a study exactly when it completes within 6 months and has at least one
extracted company. -/
def pipelineLoop (now : Int) : List Study → List PipelineItem
  | [] => []
  | study :: rest =>
    if within6Months now study then
      if !(extract_company_info study).isEmpty then
        mkPipelineItem now study :: pipelineLoop now rest
      else pipelineLoop now rest
    else pipelineLoop now rest

/-- `get_pipeline_analysis` (`/api/pipeline`, app.py lines 365-447): the
handler issues one request itself; non-200 status is a 500 error, a raised
exception reaches the outer handler (500), otherwise the kept studies are
returned in order. -/
def get_pipeline_analysis (now : Int) (r : HttpResult TrialsData) : PipelineResponse :=
  match r with
  | .failure => .error500 "request raised"
  | .success status trials_data =>
    if status != 200 then .error500 "API request failed"
    else .ok (pipelineLoop now trials_data.studies)

/-- One element of the `trials` array of `/api/company/<name>` (the dict
built at app.py lines 336-346). -/
structure TrialInfo where
  nct_id : String
  title : String
  phase : String
  status : String
  drug_name : String
  condition : String
  start_date : String
  completion_date : String
  fda_likelihood : Int
deriving DecidableEq

/-- Build the trial-info dict for one study (app.py lines 307-347). -/
def mkTrialInfo (now : Int) (study : Study) : TrialInfo :=
  let protocol_section := study.protocolSection
  let identification := protocol_section.identificationModule
  let status_module := protocol_section.statusModule
  let design_module := protocol_section.designModule
  let conditions_module := protocol_section.conditionsModule
  let interventions_module := protocol_section.armsInterventionsModule
  let intervention_names := interventions_module.interventions.map (fun i => i.name)
  let start_date :=
    match status_module.startDateStruct with
    | none => "Unknown"
    | some ds => ds.date.getD "Unknown"
  let completion_date :=
    match status_module.completionDateStruct with
    | none => "Unknown"
    | some ds => ds.date.getD "Unknown"
  { nct_id := identification.nctId
    title := identification.briefTitle
    phase := joinOrDefault design_module.phases "Unknown"
    status := status_module.overallStatus
    drug_name := joinOrDefault intervention_names "Unknown"
    condition := joinOrDefault conditions_module.conditions "Unknown"
    start_date := start_date
    completion_date := completion_date
    fda_likelihood := calculate_fda_approval_likelihood now study }

/-- Body of a 200 response of `/api/company/<name>` (app.py lines 353-357). -/
structure CompanyDetails where
  company : String
  total_trials : Nat
  trials : List TrialInfo
deriving DecidableEq

/-- Response of the `/api/company/<name>` handler: 200 with details, 404
when the query matched no studies, 500 on upstream failure. -/
inductive CompanyResponse where
  | ok (details : CompanyDetails)
  | notFound (msg : String)
  | error500 (msg : String)
deriving DecidableEq

/-- `get_company_details` (`/api/company/<name>`, app.py lines 279-363):
non-200 status or a raised exception is a 500 error, an empty studies list
is a 404, otherwise every study is shaped into a `TrialInfo` and the
response carries the list together with its length as `total_trials`. -/
def get_company_details (now : Int) (company_name : String)
    (r : HttpResult TrialsData) : CompanyResponse :=
  match r with
  | .failure => .error500 "request raised"
  | .success status trials_data =>
    if status != 200 then .error500 "API request failed"
    else
      let studies := trials_data.studies
      if studies.isEmpty then .notFound "No data available"
      else
        let company_trials := studies.map (mkTrialInfo now)
        .ok { company := company_name
              total_trials := company_trials.length
              trials := company_trials }

/-- The `fieldnames` argument given to `csv.DictWriter` in `export_leads`
(app.py line 459). Note that it does not contain "title". -/
def exportFieldnames : List String :=
  ["nct_id", "drug_name", "companies", "phase", "status", "condition",
   "completion_date", "fda_likelihood", "priority"]

/-- The keys of each lead dict passed to `writer.writerow` (the insertion
order of the dict literal at app.py lines 245-256; `lead.copy()` plus the
reassignment of "companies" leaves the key set unchanged). -/
def leadRowKeys : List String :=
  ["nct_id", "title", "phase", "status", "companies", "drug_name",
   "condition", "completion_date", "fda_likelihood", "priority"]

/-- String rendering of a lead's value under each key, as the csv module
would stringify it (the companies list is joined by `export_leads` itself
at app.py line 465). -/
def leadFieldValue (lead : Lead) (field : String) : String :=
  if field == "nct_id" then lead.nct_id
  else if field == "title" then lead.title
  else if field == "phase" then lead.phase
  else if field == "status" then lead.status
  else if field == "companies" then String.intercalate ", " lead.companies
  else if field == "drug_name" then lead.drug_name
  else if field == "condition" then lead.condition
  else if field == "completion_date" then lead.completion_date
  else if field == "fda_likelihood" then toString lead.fda_likelihood
  else if field == "priority" then lead.priority
  else ""

/-- QUOTE_MINIMAL test of the csv module: quote a field containing the
delimiter, a quote character or a line break. -/
def csvNeedsQuote (s : String) : Bool :=
  s.toList.any (fun c => c == ',' || c == '"' || c == '\n' || c == '\r')

/-- Double every quote character, as csv quoting does. -/
def escQuotes : List Char → List Char
  | [] => []
  | c :: t => if c == '"' then c :: c :: escQuotes t else c :: escQuotes t

/-- Minimal csv field quoting. -/
def csvQuote (s : String) : String :=
  if csvNeedsQuote s then "\"" ++ String.mk (escQuotes s.toList) ++ "\"" else s

/-- `csv.DictWriter.writerow` with the default `extrasaction="raise"`: a
row dict holding any key outside `fieldnames` raises `ValueError`;
otherwise the values are written in fieldname order. -/
def dictWriterRow (fieldnames rowKeys : List String) (value : String → String) :
    Except String String :=
  if rowKeys.all (fun k => fieldnames.contains k) then
    .ok (String.intercalate "," (fieldnames.map (fun f => csvQuote (value f))))
  else .error "dict contains fields not in fieldnames"

/-- The row loop of `export_leads` (app.py lines 462-466), propagating the
first raised `ValueError`. -/
def writeLeadRows : List Lead → Except String (List String)
  | [] => .ok []
  | lead :: rest =>
    match dictWriterRow exportFieldnames leadRowKeys (leadFieldValue lead) with
    | .error e => .error e
    | .ok line =>
      match writeLeadRows rest with
      | .error e => .error e
      | .ok lines => .ok (line :: lines)

/-- Response of the `/api/export` handler: 200 with the CSV text in its
JSON payload, or a 500 error. -/
inductive ExportResponse where
  | ok (payload : String)
  | error500 (msg : String)
deriving DecidableEq

/-- The header line written by `writer.writeheader()`. -/
def csvHeader : String := String.intercalate "," exportFieldnames

/-- `export_leads` (`/api/export`, app.py lines 449-471): re-run
`get_leads`; when it produced an error payload the subsequent iteration
over the parsed error dict raises (caught as a 500); otherwise write the
header line and one csv row per lead (each row terminated by CRLF as the
csv module does), with any `ValueError` from `writerow` caught as a 500. -/
def export_leads (now : Int) (apiResult : HttpResult TrialsData) : ExportResponse :=
  match get_leads now apiResult with
  | .error500 _ => .error500 "leads payload was an error document"
  | .ok leads =>
    match writeLeadRows leads with
    | .error e => .error500 e
    | .ok lines =>
      .ok (String.intercalate "\r\n" (csvHeader :: lines) ++ "\r\n")

/-- Spec-side description of the `/api/pipeline` result list: the studies
passing the inclusion test (completion date parses to at most 180 days
from `now` and at least one extracted company), shaped, in input order. -/
def pipelineItemsSpec (now : Int) (studies : List Study) : List PipelineItem :=
  (studies.filter
    (fun s => within6Months now s && !(extract_company_info s).isEmpty)).map
    (mkPipelineItem now)

/-- The raw name pool `extract_company_info` draws from: the lead sponsor
name (when the sponsor object is present) and every collaborator name. -/
def sponsorSourceNames (t : Study) : List String :=
  (match t.protocolSection.sponsorCollaboratorsModule.leadSponsor with
   | none => []
   | some ls => [ls.name]) ++
  t.protocolSection.sponsorCollaboratorsModule.collaborators.map (fun c => c.name)

/-- Sample study: a completed Phase-3 trial with a corporate sponsor and no
completion date; it scores 40 + 30 + 0 = 70 and passes the leads filter. -/
def phase3Study : Study :=
  { protocolSection :=
    { identificationModule := { nctId := "NCT00000001", briefTitle := "A trial" }
      statusModule := { overallStatus := "COMPLETED", startDateStruct := none,
                        completionDateStruct := none }
      designModule := { phases := ["PHASE3"] }
      conditionsModule := { conditions := ["Melanoma"] }
      armsInterventionsModule := { interventions := [{ name := "drugX" }] }
      sponsorCollaboratorsModule := { leadSponsor := some { name := "Acme Pharma" },
                                      collaborators := [] } } }

/-- Sample study joining PHASE2 with PHASE4: completed, completion date
2024-01-15. The PHASE2 branch of the elif chain fires first, so the phase
component is 20, not 50. -/
def cexStudy : Study :=
  { protocolSection :=
    { identificationModule := { nctId := "NCT00000002", briefTitle := "B trial" }
      statusModule := { overallStatus := "COMPLETED", startDateStruct := none,
                        completionDateStruct := some { date := some "2024-01-15" } }
      designModule := { phases := ["PHASE2", "PHASE4"] }
      conditionsModule := { conditions := [] }
      armsInterventionsModule := { interventions := [] }
      sponsorCollaboratorsModule := { leadSponsor := some { name := "Acme Pharma" },
                                      collaborators := [] } } }

/-- Sample study with phase list exactly ["PHASE4"]: completed, completion
date 2024-01-15. -/
def phase4Study : Study :=
  { protocolSection :=
    { identificationModule := { nctId := "NCT00000003", briefTitle := "C trial" }
      statusModule := { overallStatus := "COMPLETED", startDateStruct := none,
                        completionDateStruct := some { date := some "2024-01-15" } }
      designModule := { phases := ["PHASE4"] }
      conditionsModule := { conditions := [] }
      armsInterventionsModule := { interventions := [] }
      sponsorCollaboratorsModule := { leadSponsor := some { name := "Acme Pharma" },
                                      collaborators := [] } } }

/-- Reference clock for the dated samples: 2024-01-01 as a civil day
number (both dated sample studies complete 14 days later). -/
def cexNow : Int := daysFromCivil 2024 1 1

/-- Sample parsed response document, as JSON: an object whose "studies"
key holds a one-element array. -/
def sampleDoc : JsonVal :=
  JsonVal.obj [("studies", JsonVal.arr [JsonVal.obj []])]

theorem phaseScore_cases (t : Study) :
    phaseScore t = 0 ∨ phaseScore t = 20 ∨ phaseScore t = 40 ∨ phaseScore t = 50 := by
  simp only [phaseScore]
  split_ifs <;> simp

theorem statusScore_cases (t : Study) :
    statusScore t = 0 ∨ statusScore t = 15 ∨ statusScore t = 25 ∨ statusScore t = 30 := by
  simp only [statusScore]
  split_ifs <;> simp

theorem timelineScore_cases (now : Int) (t : Study) :
    timelineScore now t = 0 ∨ timelineScore now t = 25 ∨ timelineScore now t = 35 := by
  unfold timelineScore
  split
  · exact Or.inl rfl
  · split
    · exact Or.inl rfl
    · split_ifs with h1
      · exact Or.inl rfl
      · split
        · exact Or.inl rfl
        · dsimp only
          split_ifs <;> simp

/-- C1: for every trial record, `calculate_fda_approval_likelihood` returns
an integer in [0,100]; it is the capped sum min(sum, 100) of a phase
component in {0,20,40,50}, a status component in {0,15,25,30} and a
timeline component in {0,25,35}, none of which is negative. -/
theorem fda_likelihood_in_range (now : Int) (t : Study) :
    0 ≤ calculate_fda_approval_likelihood now t ∧
    calculate_fda_approval_likelihood now t ≤ 100 ∧
    calculate_fda_approval_likelihood now t =
      min (phaseScore t + statusScore t + timelineScore now t) 100 ∧
    (phaseScore t = 0 ∨ phaseScore t = 20 ∨ phaseScore t = 40 ∨ phaseScore t = 50) ∧
    (statusScore t = 0 ∨ statusScore t = 15 ∨ statusScore t = 25 ∨ statusScore t = 30) ∧
    (timelineScore now t = 0 ∨ timelineScore now t = 25 ∨ timelineScore now t = 35) := by
  have hp := phaseScore_cases t
  have hs := statusScore_cases t
  have ht := timelineScore_cases now t
  have h0 : 0 ≤ phaseScore t + statusScore t + timelineScore now t := by
    rcases hp with h | h | h | h <;> rcases hs with h2 | h2 | h2 | h2 <;>
      rcases ht with h3 | h3 | h3 <;> omega
  refine ⟨?_, ?_, rfl, hp, hs, ht⟩
  · exact le_min h0 (by norm_num)
  · exact min_le_right _ _

theorem mkLead_fda_likelihood (now : Int) (s : Study) :
    (mkLead now s).fda_likelihood = calculate_fda_approval_likelihood now s := rfl

theorem mkLead_companies (now : Int) (s : Study) :
    (mkLead now s).companies = extract_company_info s := rfl

theorem mkLead_priority (now : Int) (s : Study) :
    (mkLead now s).priority =
      (if calculate_fda_approval_likelihood now s > 70 then "High"
       else if calculate_fda_approval_likelihood now s > 50 then "Medium"
       else "Low") := rfl

theorem collectLeads_length_le (now : Int) :
    ∀ (studies : List Study) (acc : List Lead), acc.length ≤ 49 →
      (collectLeads now studies acc).length ≤ 50 := by
  intro studies
  induction studies with
  | nil =>
    intro acc h
    unfold collectLeads
    omega
  | cons s rest ih =>
    intro acc h
    unfold collectLeads
    dsimp only
    by_cases hk : leadKeep now s = true
    · simp only [hk, if_true]
      by_cases h50 : (acc ++ [mkLead now s]).length ≥ 50
      · simp only [h50, if_true]
        simp only [List.length_append, List.length_singleton]
        omega
      · simp only [h50, if_false]
        apply ih
        simp only [List.length_append, List.length_singleton] at h50 ⊢
        omega
    · simp only [Bool.not_eq_true] at hk
      simp only [hk, Bool.false_eq_true, if_false]
      by_cases h50 : acc.length ≥ 50
      · omega
      · simp only [h50, if_false]
        exact ih acc (by omega)

theorem mem_collectLeads (now : Int) :
    ∀ (studies : List Study) (acc : List Lead) (l : Lead),
      l ∈ collectLeads now studies acc →
      l ∈ acc ∨ ∃ s ∈ studies, leadKeep now s = true ∧ l = mkLead now s := by
  intro studies
  induction studies with
  | nil =>
    intro acc l h
    exact Or.inl h
  | cons s rest ih =>
    intro acc l h
    unfold collectLeads at h
    dsimp only at h
    by_cases hk : leadKeep now s = true
    · simp only [hk, if_true] at h
      by_cases h50 : (acc ++ [mkLead now s]).length ≥ 50
      · simp only [h50, if_true] at h
        rcases List.mem_append.mp h with h1 | h2
        · exact Or.inl h1
        · exact Or.inr ⟨s, List.mem_cons_self s rest, hk, by simpa using h2⟩
      · simp only [h50, if_false] at h
        rcases ih _ l h with h1 | ⟨s', hs', hk', hl'⟩
        · rcases List.mem_append.mp h1 with h2 | h3
          · exact Or.inl h2
          · exact Or.inr ⟨s, List.mem_cons_self s rest, hk, by simpa using h3⟩
        · exact Or.inr ⟨s', List.mem_cons_of_mem s hs', hk', hl'⟩
    · simp only [Bool.not_eq_true] at hk
      simp only [hk, Bool.false_eq_true, if_false] at h
      by_cases h50 : acc.length ≥ 50
      · simp only [h50, if_true] at h
        exact Or.inl h
      · simp only [h50, if_false] at h
        rcases ih _ l h with h1 | ⟨s', hs', hk', hl'⟩
        · exact Or.inl h1
        · exact Or.inr ⟨s', List.mem_cons_of_mem s hs', hk', hl'⟩

theorem get_leads_ok_eq (now : Int) (r : HttpResult TrialsData) (leads : List Lead)
    (h : get_leads now r = LeadsResponse.ok leads) :
    ∃ td : TrialsData, search_trials r = some td ∧
      leads = List.insertionSort leadGE (collectLeads now td.studies []) := by
  unfold get_leads at h
  cases hs : search_trials r with
  | none =>
    rw [hs] at h
    exact LeadsResponse.noConfusion h
  | some td =>
    rw [hs] at h
    dsimp only at h
    by_cases he : td.studies.isEmpty = true
    · simp only [he, if_true] at h
      exact LeadsResponse.noConfusion h
    · simp only [Bool.not_eq_true] at he
      simp only [he, Bool.false_eq_true, if_false] at h
      exact ⟨td, rfl, (LeadsResponse.ok.inj h).symm⟩

/-- C2: every 200 response body of `/api/leads` is an array sorted by
`fda_likelihood` in descending order, containing at most 50 entries (the
collection loop breaks at 50 before the final sort), in which every entry
has `fda_likelihood` > 30 and a non-empty companies list. -/
theorem get_leads_ok_properties (now : Int) (r : HttpResult TrialsData)
    (leads : List Lead) (h : get_leads now r = LeadsResponse.ok leads) :
    List.Sorted leadGE leads ∧ leads.length ≤ 50 ∧
    ∀ l ∈ leads, 30 < l.fda_likelihood ∧ l.companies ≠ [] := by
  obtain ⟨td, -, rfl⟩ := get_leads_ok_eq now r leads h
  refine ⟨List.sorted_insertionSort leadGE _, ?_, ?_⟩
  · rw [(List.perm_insertionSort leadGE _).length_eq]
    exact collectLeads_length_le now td.studies [] (by simp)
  · intro l hl
    have hmem : l ∈ collectLeads now td.studies [] :=
      (List.mem_insertionSort leadGE).mp hl
    rcases mem_collectLeads now td.studies [] l hmem with h1 | ⟨s, -, hk, rfl⟩
    · cases h1
    · unfold leadKeep at hk
      simp only [Bool.and_eq_true, Bool.not_eq_true', decide_eq_true_eq] at hk
      obtain ⟨hne, hgt⟩ := hk
      refine ⟨by simpa [mkLead_fda_likelihood] using hgt, ?_⟩
      rw [mkLead_companies]
      intro hnil
      rw [hnil] at hne
      simp at hne

/-- C2 witness: a one-study upstream document produces a 200 response with
the three properties. -/
theorem get_leads_ok_properties_witness :
    List.Sorted leadGE [mkLead 0 phase3Study] ∧
    ([mkLead 0 phase3Study] : List Lead).length ≤ 50 ∧
    ∀ l ∈ [mkLead 0 phase3Study], 30 < l.fda_likelihood ∧ l.companies ≠ [] :=
  get_leads_ok_properties 0 (HttpResult.success 200 { studies := [phase3Study] })
    [mkLead 0 phase3Study] (by decide)

/-- C8: in every lead produced by the `/api/leads` pipeline, priority is a
deterministic function of `fda_likelihood`: "High" iff it exceeds 70,
"Medium" iff it is in (50, 70], and "Low" iff it is at most 50. -/
theorem lead_priority_deterministic (now : Int) (r : HttpResult TrialsData)
    (leads : List Lead) (l : Lead) (h : get_leads now r = LeadsResponse.ok leads)
    (hl : l ∈ leads) :
    (l.priority = "High" ↔ 70 < l.fda_likelihood) ∧
    (l.priority = "Medium" ↔ (50 < l.fda_likelihood ∧ l.fda_likelihood ≤ 70)) ∧
    (l.priority = "Low" ↔ l.fda_likelihood ≤ 50) := by
  obtain ⟨td, -, rfl⟩ := get_leads_ok_eq now r leads h
  have hmem : l ∈ collectLeads now td.studies [] :=
    (List.mem_insertionSort leadGE).mp hl
  rcases mem_collectLeads now td.studies [] l hmem with h1 | ⟨s, -, -, rfl⟩
  · cases h1
  · rw [mkLead_priority, mkLead_fda_likelihood]
    simp only [gt_iff_lt]
    by_cases h70 : 70 < calculate_fda_approval_likelihood now s
    · rw [if_pos h70]
      exact ⟨⟨fun _ => h70, fun _ => rfl⟩,
        ⟨fun hM => absurd hM (by decide), fun hc => absurd h70 (by omega)⟩,
        ⟨fun hL => absurd hL (by decide), fun hle => absurd h70 (by omega)⟩⟩
    · rw [if_neg h70]
      by_cases h50 : 50 < calculate_fda_approval_likelihood now s
      · rw [if_pos h50]
        exact ⟨⟨fun hH => absurd hH (by decide), fun hlt => absurd hlt h70⟩,
          ⟨fun _ => ⟨h50, by omega⟩, fun _ => rfl⟩,
          ⟨fun hL => absurd hL (by decide), fun hle => absurd h50 (by omega)⟩⟩
      · rw [if_neg h50]
        exact ⟨⟨fun hH => absurd hH (by decide), fun hlt => absurd hlt h70⟩,
          ⟨fun hM => absurd hM (by decide), fun hc => absurd hc.1 h50⟩,
          ⟨fun _ => by omega, fun _ => rfl⟩⟩

/-- C8 witness: the sample lead has likelihood 70, hence priority
"Medium", and the three biconditionals hold for it. -/
theorem lead_priority_deterministic_witness :
    ((mkLead 0 phase3Study).priority = "High" ↔
      70 < (mkLead 0 phase3Study).fda_likelihood) ∧
    ((mkLead 0 phase3Study).priority = "Medium" ↔
      (50 < (mkLead 0 phase3Study).fda_likelihood ∧
       (mkLead 0 phase3Study).fda_likelihood ≤ 70)) ∧
    ((mkLead 0 phase3Study).priority = "Low" ↔
      (mkLead 0 phase3Study).fda_likelihood ≤ 50) :=
  lead_priority_deterministic 0 (HttpResult.success 200 { studies := [phase3Study] })
    [mkLead 0 phase3Study] (mkLead 0 phase3Study) (by decide) (by decide)

/-- C4 counterexample: on a 200 response whose parsed body is the full
response document (an object with a "studies" key), `search_trials`
returns that document itself, not the document's studies list. -/
theorem search_trials_not_studies_list :
    search_trials (HttpResult.success 200 sampleDoc) = some sampleDoc ∧
    search_trials (HttpResult.success 200 sampleDoc) ≠
      some (JsonVal.arr [JsonVal.obj []]) := by
  refine ⟨rfl, fun h => ?_⟩
  have h2 : sampleDoc = JsonVal.arr [JsonVal.obj []] :=
    Option.some.inj (h : some sampleDoc = some (JsonVal.arr [JsonVal.obj []]))
  exact JsonVal.noConfusion h2

/-- C4 (amended): for every outcome of the single network call,
`search_trials` returns the full parsed document on a 200 response, and
returns None on any non-200 status and on transport failure, rather than
raising past the caller. -/
theorem search_trials_behavior {α : Type} (status : Nat) (body : α) :
    (status = 200 → search_trials (HttpResult.success status body) = some body) ∧
    (status ≠ 200 → search_trials (HttpResult.success status body) = none) ∧
    search_trials (HttpResult.failure : HttpResult α) = none := by
  refine ⟨fun h => ?_, fun h => ?_, rfl⟩
  · unfold search_trials
    simp [h]
  · unfold search_trials
    simp only [beq_iff_eq]
    rw [if_neg h]

/-- C4 witness: the behavior theorem applied at status 200 and status 404
with the sample document as body. -/
theorem search_trials_behavior_witness :
    search_trials (HttpResult.success 200 sampleDoc) = some sampleDoc ∧
    search_trials (HttpResult.success 404 sampleDoc) = none :=
  ⟨(search_trials_behavior 200 sampleDoc).1 rfl,
   (search_trials_behavior 404 sampleDoc).2.1 (by decide)⟩

/-- C5 counterexample: `cexStudy` joins PHASE2 with PHASE4, is COMPLETED,
and completes 14 days after `cexNow`, yet scores 85, not 100, because the
elif chain awards the PHASE2 branch (+20) before ever testing PHASE4. -/
theorem phase2_phase4_not_100 :
    strContains (phaseJoined cexStudy) "PHASE4" = true ∧
    cexStudy.protocolSection.statusModule.overallStatus = "COMPLETED" ∧
    cexStudy.protocolSection.statusModule.completionDateStruct =
      some { date := some "2024-01-15" } ∧
    parseDateYMD "2024-01-15" = some (daysFromCivil 2024 1 15) ∧
    daysFromCivil 2024 1 15 - cexNow ≤ 180 ∧
    calculate_fda_approval_likelihood cexNow cexStudy = 85 ∧
    calculate_fda_approval_likelihood cexNow cexStudy ≠ 100 := by decide

/-- C5 (amended): every record whose joined phase list contains "PHASE4"
and either also contains "PHASE3" or does not contain "PHASE2" (the elif
chain tests PHASE3, then PHASE2, then PHASE4), whose status is COMPLETED,
and whose completion date parses (YYYY-MM-DD) to at most 180 days from
now, scores exactly min(50+30+35, 100) = 100 (with the PHASE3 case capped
from 105). -/
theorem phase4_completed_soon_scores_100 (now : Int) (t : Study)
    (hp4 : strContains (phaseJoined t) "PHASE4" = true)
    (hnc : strContains (phaseJoined t) "PHASE3" = true ∨
           strContains (phaseJoined t) "PHASE2" = false)
    (hst : t.protocolSection.statusModule.overallStatus = "COMPLETED")
    (info : DateStruct) (date_str : String) (compDay : Int)
    (hcd : t.protocolSection.statusModule.completionDateStruct = some info)
    (hdate : info.date = some date_str)
    (hparse : parseDateYMD date_str = some compDay)
    (hdays : compDay - now ≤ 180) :
    calculate_fda_approval_likelihood now t = 100 := by
  have hts : timelineScore now t = 35 := by
    unfold timelineScore
    rw [hcd]
    dsimp only
    rw [hdate]
    dsimp only
    have hne : (date_str == "") = false := by
      cases h0 : date_str == ""
      · rfl
      · exfalso
        have he : date_str = "" := by simpa using h0
        rw [he] at hparse
        exact Option.noConfusion hparse
    rw [hne]
    simp only [Bool.false_eq_true, if_false]
    rw [hparse]
    dsimp only
    rw [if_pos hdays]
  have hss : statusScore t = 30 := by
    unfold statusScore
    rw [hst]
    decide
  have hps : phaseScore t = 40 ∨ phaseScore t = 50 := by
    unfold phaseScore
    cases h3 : strContains (phaseJoined t) "PHASE3"
    · rcases hnc with h | h2
      · rw [h3] at h
        exact Bool.noConfusion h
      · simp [h3, h2, hp4]
    · simp [h3]
  unfold calculate_fda_approval_likelihood
  rcases hps with h | h <;> rw [h, hss, hts] <;> decide

/-- C5 witness: `phase4Study` (phase list exactly ["PHASE4"], COMPLETED,
completing 14 days after `cexNow`) scores 100. -/
theorem phase4_completed_soon_scores_100_witness :
    calculate_fda_approval_likelihood cexNow phase4Study = 100 :=
  phase4_completed_soon_scores_100 cexNow phase4Study (by decide)
    (Or.inr (by decide)) rfl { date := some "2024-01-15" } "2024-01-15"
    (daysFromCivil 2024 1 15) rfl rfl (by decide) (by decide)

theorem pipelineLoop_eq_spec (now : Int) :
    ∀ studies : List Study, pipelineLoop now studies = pipelineItemsSpec now studies := by
  intro studies
  induction studies with
  | nil => rfl
  | cons s rest ih =>
    unfold pipelineLoop pipelineItemsSpec
    by_cases h6 : within6Months now s = true
    · by_cases hc : (extract_company_info s).isEmpty = true
      · simp only [h6, if_true, hc, Bool.not_true, Bool.false_eq_true, if_false]
        rw [ih]
        unfold pipelineItemsSpec
        rw [List.filter_cons_of_neg (by simp [h6, hc])]
      · simp only [Bool.not_eq_true] at hc
        simp only [h6, if_true, hc, Bool.not_false]
        rw [ih]
        unfold pipelineItemsSpec
        rw [List.filter_cons_of_pos (by simp [h6, hc]), List.map_cons]
    · simp only [Bool.not_eq_true] at h6
      simp only [h6, Bool.false_eq_true, if_false]
      rw [ih]
      unfold pipelineItemsSpec
      rw [List.filter_cons_of_neg (by simp [h6])]

theorem mkPipelineItem_urgency (now : Int) (s : Study) :
    (mkPipelineItem now s).urgency = "High" := rfl

/-- C7: on a 200 upstream response, the `/api/pipeline` handler returns
exactly the studies whose completion date parses to at most 180 days from
now and that have at least one extracted company (in input order), and
every returned item carries urgency "High". -/
theorem pipeline_inclusion_and_urgency (now : Int) (td : TrialsData) :
    get_pipeline_analysis now (HttpResult.success 200 td) =
      PipelineResponse.ok (pipelineItemsSpec now td.studies) ∧
    (pipelineItemsSpec now td.studies).all
      (fun item => item.urgency == "High") = true := by
  constructor
  · unfold get_pipeline_analysis
    simp only [bne_self_eq_false, Bool.false_eq_true, if_false]
    rw [pipelineLoop_eq_spec]
  · rw [List.all_eq_true]
    intro item hitem
    unfold pipelineItemsSpec at hitem
    rcases List.mem_map.mp hitem with ⟨s, -, rfl⟩
    rw [mkPipelineItem_urgency]
    rfl

/-- C9: every 200 response of `/api/company/<name>` has `total_trials`
equal to the length of its `trials` array. -/
theorem company_total_trials_matches (now : Int) (company_name : String)
    (r : HttpResult TrialsData) (d : CompanyDetails)
    (h : get_company_details now company_name r = CompanyResponse.ok d) :
    d.total_trials = d.trials.length := by
  cases r with
  | failure => exact CompanyResponse.noConfusion h
  | success status td =>
    unfold get_company_details at h
    dsimp only at h
    by_cases hs : (status != 200) = true
    · simp only [hs, if_true] at h
      exact CompanyResponse.noConfusion h
    · simp only [Bool.not_eq_true] at hs
      simp only [hs, Bool.false_eq_true, if_false] at h
      by_cases he : td.studies.isEmpty = true
      · simp only [he, if_true] at h
        exact CompanyResponse.noConfusion h
      · simp only [Bool.not_eq_true] at he
        simp only [he, Bool.false_eq_true, if_false] at h
        rw [(CompanyResponse.ok.inj h).symm]

/-- C9 witness: a one-study upstream document yields a 200 company
response whose `total_trials` equals the length of `trials`. -/
theorem company_total_trials_matches_witness :
    ({ company := "Acme Pharma", total_trials := 1,
       trials := [mkTrialInfo 0 phase3Study] } : CompanyDetails).total_trials =
    ({ company := "Acme Pharma", total_trials := 1,
       trials := [mkTrialInfo 0 phase3Study] } : CompanyDetails).trials.length :=
  company_total_trials_matches 0 "Acme Pharma"
    (HttpResult.success 200 { studies := [phase3Study] })
    { company := "Acme Pharma", total_trials := 1,
      trials := [mkTrialInfo 0 phase3Study] } (by decide)

theorem companyNameOk_spec (name : String) (h : companyNameOk name = true) :
    name ≠ "" ∧ strContains name "University" = false ∧
    strContains name "Hospital" = false := by
  unfold companyNameOk at h
  simp only [Bool.and_eq_true, bne_iff_ne, ne_eq, Bool.not_eq_true'] at h
  exact ⟨h.1.1, h.1.2, h.2⟩

theorem mem_collabNames (name : String) :
    ∀ cs : List Sponsor, name ∈ collabNames cs →
      companyNameOk name = true ∧ name ∈ cs.map (fun c => c.name) := by
  intro cs
  induction cs with
  | nil => intro h; cases h
  | cons c rest ih =>
    intro h
    unfold collabNames at h
    by_cases hc : companyNameOk c.name = true
    · rw [if_pos hc] at h
      rcases List.mem_cons.mp h with rfl | h2
      · exact ⟨hc, by simp⟩
      · obtain ⟨h3, h4⟩ := ih h2
        exact ⟨h3, by simp [List.mem_map] at h4 ⊢; tauto⟩
    · rw [if_neg hc] at h
      obtain ⟨h3, h4⟩ := ih h
      exact ⟨h3, by simp [List.mem_map] at h4 ⊢; tauto⟩

theorem mem_extract_company_info (t : Study) (name : String)
    (h : name ∈ extract_company_info t) :
    companyNameOk name = true ∧ name ∈ sponsorSourceNames t := by
  unfold extract_company_info at h
  have h2 := List.mem_dedup.mp h
  rcases List.mem_append.mp h2 with h3 | h4
  · cases hls : t.protocolSection.sponsorCollaboratorsModule.leadSponsor with
    | none =>
      rw [hls] at h3
      cases h3
    | some ls =>
      rw [hls] at h3
      dsimp only at h3
      by_cases hok : companyNameOk ls.name = true
      · rw [if_pos hok] at h3
        have : name = ls.name := by simpa using h3
        subst this
        refine ⟨hok, ?_⟩
        unfold sponsorSourceNames
        rw [hls]
        simp
      · rw [if_neg hok] at h3
        cases h3
  · obtain ⟨h5, h6⟩ := mem_collabNames name _ h4
    refine ⟨h5, ?_⟩
    unfold sponsorSourceNames
    exact List.mem_append.mpr (Or.inr h6)

/-- C6: `extract_company_info` returns a deduplicated list of lead-sponsor
and collaborator names, and no returned name contains the literal
substrings "University" or "Hospital". -/
theorem extract_company_info_clean (t : Study) :
    (extract_company_info t).Nodup ∧
    ∀ name ∈ extract_company_info t,
      strContains name "University" = false ∧
      strContains name "Hospital" = false ∧
      name ∈ sponsorSourceNames t := by
  refine ⟨List.nodup_dedup _, fun name h => ?_⟩
  obtain ⟨hok, hsrc⟩ := mem_extract_company_info t name h
  obtain ⟨-, hu, hh⟩ := companyNameOk_spec name hok
  exact ⟨hu, hh, hsrc⟩

/-- C6 witness: the extraction of the sample study is nodup and its single
name "Acme Pharma" satisfies the three conclusions. -/
theorem extract_company_info_clean_witness :
    (extract_company_info phase3Study).Nodup ∧
    (strContains "Acme Pharma" "University" = false ∧
     strContains "Acme Pharma" "Hospital" = false ∧
     "Acme Pharma" ∈ sponsorSourceNames phase3Study) :=
  ⟨(extract_company_info_clean phase3Study).1,
   (extract_company_info_clean phase3Study).2 "Acme Pharma" (by decide)⟩

/-- C10: every string returned by `extract_company_info` is non-empty; a
missing or empty sponsor or collaborator name is dropped rather than
contributing an empty string. -/
theorem extract_company_info_no_empty (t : Study) (name : String)
    (h : name ∈ extract_company_info t) : name ≠ "" :=
  (companyNameOk_spec name (mem_extract_company_info t name h).1).1

/-- C10 witness: the sample study's extracted name is non-empty. -/
theorem extract_company_info_no_empty_witness :
    "Acme Pharma" ∈ extract_company_info phase3Study ∧ ("Acme Pharma" : String) ≠ "" :=
  ⟨by decide, extract_company_info_no_empty phase3Study "Acme Pharma" (by decide)⟩

/-- C3 (code bug): every lead dict contains the key "title", which is
absent from the `fieldnames` given to `csv.DictWriter`, so
`writer.writerow` raises ValueError for every lead and `/api/export`
returns a 500 error instead of a CSV with one data line per lead. Here a
one-lead run is evaluated: `get_leads` succeeds with one lead, yet
`export_leads` produces the error payload. -/
theorem export_fails_with_title_key :
    ("title" ∈ leadRowKeys ∧ "title" ∉ exportFieldnames) ∧
    get_leads 0 (HttpResult.success 200 { studies := [phase3Study] }) =
      LeadsResponse.ok [mkLead 0 phase3Study] ∧
    export_leads 0 (HttpResult.success 200 { studies := [phase3Study] }) =
      ExportResponse.error500 "dict contains fields not in fieldnames" := by decide
